import Mathlib

/-!
Verification development for the `routing` package: a shallow embedding of
`src/routing/routing.go` (data model, ordering comparator, resolution engine)
and of the route-record construction in `src/routing/routing_linux.go`,
together with theorems settling the specification claims.

Modelling conventions:
* Go byte slices (`net.IP`, `net.IPMask`, hardware addresses) are `List Nat`
  with each element a byte value; a nil slice and an empty slice are both `[]`
  (the Go code only ever inspects them through length and indexing, where nil
  and empty coincide).
* Go fields that the code compares against `nil` as a whole value
  (`rtInfo.Gateway`, `rtInfo.PrefSrc`) are `Option (List Nat)`.
* Go's `int32`/`int64` fields are `Int`; no arithmetic is performed on them
  by the embedded code (only comparisons), so no wrap-around modelling is
  needed.
* Go maps (`router.ifaces`, `router.addrs`) are association lists with a
  fixed iteration order; the Go iteration order is unspecified, and every
  concrete instance used below has at most one matching entry per scan, so
  the choice of order is immaterial there.
-/

/-- Byte-level equality test used by `isZeros` in Go's `net` package:
all bytes of the slice are zero. -/
def isZeros (l : List Nat) : Bool :=
  l.all (fun b => b == 0)

/-- Go `net.IP.To4`: a 4-byte address is returned as is; a 16-byte
IPv4-mapped address (ten zero bytes then 0xff 0xff) is narrowed to its last
four bytes; anything else yields nil (`none`). -/
def ipTo4 (ip : List Nat) : Option (List Nat) :=
  if ip.length == 4 then some ip
  else if ip.length == 16 && isZeros (ip.take 10)
       && ip.getD 10 0 == 0xff && ip.getD 11 0 == 0xff then
    some (ip.drop 12)
  else none

/-- The 12-byte IPv4-in-IPv6 marker `v4InV6Prefix` from Go's `net` package. -/
def v4MappedPfx : List Nat := [0, 0, 0, 0, 0, 0, 0, 0, 0, 0, 0xff, 0xff]

/-- Go `net.IP.To16`: widens a 4-byte address to its IPv4-mapped 16-byte
form, keeps a 16-byte address, and yields nil (`none`) otherwise. -/
def ipTo16 (ip : List Nat) : Option (List Nat) :=
  if ip.length == 4 then some (v4MappedPfx ++ ip)
  else if ip.length == 16 then some ip
  else none

/-- Go `net.IP.Equal`: equal lengths compare byte-wise; a 4-byte and a
16-byte address are equal when the longer one is the IPv4-mapped form of the
shorter one; all other length combinations are unequal. -/
def ipEqual (ip x : List Nat) : Bool :=
  if ip.length == x.length then ip == x
  else if ip.length == 4 && x.length == 16 then
    x.take 12 == v4MappedPfx && ip == x.drop 12
  else if ip.length == 16 && x.length == 4 then
    ip.take 12 == v4MappedPfx && ip.drop 12 == x
  else false

/-- Go `net.IP.IsUnspecified`: the address equals `0.0.0.0` or `::`. -/
def isUnspecified (ip : List Nat) : Bool :=
  ipEqual ip [0, 0, 0, 0] || ipEqual ip (List.replicate 16 0)

/-- An IP network (`net.IPNet`): address plus mask, both byte lists.  The
zero value (`net.IPNet{}`) is `⟨[], []⟩`. -/
structure IPNet where
  ip : List Nat
  mask : List Nat
deriving DecidableEq, Repr

/-- The zero value `net.IPNet{}`: nil address and nil mask. -/
def zeroIPNet : IPNet := ⟨[], []⟩

/-- Go `networkNumberAndMask`: normalizes a network's address to 4-byte form
when possible, checks mask/address length consistency, and narrows a 16-byte
mask to its last 4 bytes for a 4-byte address.  Returns `none` exactly where
Go returns `(nil, nil)`. -/
def networkNumberAndMask (n : IPNet) : Option (List Nat × List Nat) :=
  let ipo : Option (List Nat) :=
    match ipTo4 n.ip with
    | some v4 => some v4
    | none => if n.ip.length == 16 then some n.ip else none
  match ipo with
  | none => none
  | some ip =>
    if n.mask.length == 4 then
      if ip.length != 4 then none else some (ip, n.mask)
    else if n.mask.length == 16 then
      if ip.length == 4 then some (ip, n.mask.drop 12) else some (ip, n.mask)
    else none

/-- Go `net.IPNet.Contains`: after normalization of both sides, the lengths
must agree and the masked bytes of the network address must equal the masked
bytes of the queried address.  Where `networkNumberAndMask` fails, Go's loop
runs over a nil network number, so only a zero-length query is contained. -/
def containsIP (n : IPNet) (ip : List Nat) : Bool :=
  let nm := (networkNumberAndMask n).getD ([], [])
  let ip' := match ipTo4 ip with
    | some x => x
    | none => ip
  if ip'.length != nm.1.length then false
  else
    (List.zip (List.zip nm.1 nm.2) ip').all
      (fun p => p.1.1 &&& p.1.2 == p.2 &&& p.1.2)

/-- One iteration bound of the bit-clearing loop in `countMaskOnes`
(`each &= each - 1` clears the lowest set bit); the first argument is fuel,
which 8 iterations per byte always suffices for. -/
def clearLowestLoop : Nat → Nat → Nat
  | 0, _ => 0
  | fuel + 1, b => if b == 0 then 0 else clearLowestLoop fuel (b &&& (b - 1)) + 1

/-- `countMaskOnes` from `routing.go`: the number of set bits in the mask,
computed byte by byte with Kernighan's lowest-set-bit-clearing loop. -/
def countMaskOnes (mask : List Nat) : Nat :=
  mask.foldl (fun cnt each => cnt + clearLowestLoop 8 each) 0

/-- `rtInfo` from `routing.go`: one route record. -/
structure rtInfo where
  Dst : IPNet
  Src : IPNet
  InputIface : Int
  OutputIface : Int
  Gateway : Option (List Nat)
  Priority : Int
  PrefSrc : Option (List Nat)
  Metrics : Int
deriving DecidableEq, Repr

/-- The zero value `rtInfo{}` that route ingestion starts from. -/
def zeroRtInfo : rtInfo :=
  { Dst := zeroIPNet, Src := zeroIPNet, InputIface := 0, OutputIface := 0,
    Gateway := none, Priority := 0, PrefSrc := none, Metrics := 0 }

/-- `routeSlice.Less` from `routing.go`: strictly more destination mask bits
first; on equal bit counts, strictly smaller priority; on equal priorities,
strictly smaller metric. -/
def lessRt (a b : rtInfo) : Bool :=
  let onesI := countMaskOnes a.Dst.mask
  let onesJ := countMaskOnes b.Dst.mask
  if onesI == onesJ then
    if a.Priority == b.Priority then decide (a.Metrics < b.Metrics)
    else decide (a.Priority < b.Priority)
  else decide (onesJ < onesI)

/-- A route list is sorted for `routeSlice.Less` when no later entry is
`Less` than an earlier one (the postcondition `sort.Sort` establishes). -/
def SortedRt (l : List rtInfo) : Prop :=
  l.Pairwise (fun a b => lessRt b a = false)

/-- The documented postcondition of Go's `sort.Sort` applied to a
`routeSlice`: the output is a permutation of the input that is sorted with
respect to `routeSlice.Less`.  Go documents `sort.Sort` as not guaranteed to
be stable, so nothing beyond this is assumed. -/
def GoSorted (input output : List rtInfo) : Prop :=
  List.Perm input output ∧ SortedRt output

/-- Go `net.CIDRMask` byte construction: `ones` leading one bits spread over
the given number of mask bytes, remaining bits zero. -/
def cidrMaskBytes : Nat → Nat → List Nat
  | 0, _ => []
  | l + 1, n =>
    if n ≥ 8 then 0xff :: cidrMaskBytes l (n - 8)
    else (0xff ^^^ (0xff >>> n)) :: cidrMaskBytes l 0

/-- Go `net.CIDRMask ones bits`: nil (`[]`) unless `bits` is 32 or 128 and
`0 ≤ ones ≤ bits`; otherwise a mask of `bits / 8` bytes with `ones` leading
one bits.  (`ones` comes from an unsigned byte here, so it is a `Nat`.) -/
def cidrMask (ones bits : Nat) : List Nat :=
  if bits != 32 && bits != 128 then []
  else if ones > bits then []
  else cidrMaskBytes (bits / 8) ones

/-- One parsed rtnetlink route attribute: the `syscall.NetlinkRouteAttr`
type code (RTA_DST = 1, RTA_SRC = 2, RTA_IIF = 3, RTA_OIF = 4,
RTA_GATEWAY = 5, RTA_PRIORITY = 6, RTA_PREFSRC = 7, RTA_METRICS = 8) and the
attribute payload bytes. -/
structure NetlinkRouteAttr where
  typ : Nat
  value : List Nat
deriving DecidableEq, Repr

/-- One RTM_NEWROUTE message as `setupRouteTable` in `routing_linux.go`
consumes it: the `rtmsg` header fields used by the code (family, destination
and source prefix lengths) and its parsed attribute list. -/
structure NetlinkRouteMsg where
  family : Nat
  dstLen : Nat
  srcLen : Nat
  attrs : List NetlinkRouteAttr
deriving DecidableEq, Repr

/-- The `*(*int32)(unsafe.Pointer(&attr.Value[0]))` reads in
`routing_linux.go`: a little-endian (host order on the platforms the file
targets) signed 32-bit integer from the first four payload bytes. -/
def int32LE (v : List Nat) : Int :=
  let n : Nat := (v.getD 0 0 + 256 * v.getD 1 0 + 65536 * v.getD 2 0
            + 16777216 * v.getD 3 0) % 2 ^ 32
  if n ≥ 2 ^ 31 then (n : Int) - 2 ^ 32 else (n : Int)

/-- The attribute switch of `setupRouteTable` in `routing_linux.go`: one
attribute updates one field of the route record under construction;
`RTA_DST` and `RTA_SRC` build an `IPNet` whose mask has the header's prefix
length over `len(value) * 8` bits. -/
def applyAttr (dstLen srcLen : Nat) (info : rtInfo) (a : NetlinkRouteAttr) : rtInfo :=
  if a.typ == 1 then
    { info with Dst := ⟨a.value, cidrMask dstLen (a.value.length * 8)⟩ }
  else if a.typ == 2 then
    { info with Src := ⟨a.value, cidrMask srcLen (a.value.length * 8)⟩ }
  else if a.typ == 3 then { info with InputIface := int32LE a.value }
  else if a.typ == 4 then { info with OutputIface := int32LE a.value }
  else if a.typ == 5 then { info with Gateway := some a.value }
  else if a.typ == 6 then { info with Priority := int32LE a.value }
  else if a.typ == 7 then { info with PrefSrc := some a.value }
  else if a.typ == 8 then { info with Metrics := int32LE a.value }
  else info

/-- Route-record construction for one RTM_NEWROUTE message: start from the
zero `rtInfo` and fold the attribute switch over the attribute list. -/
def buildRtInfo (m : NetlinkRouteMsg) : rtInfo :=
  m.attrs.foldl (applyAttr m.dstLen m.srcLen) zeroRtInfo

/-- The family partitioning of `setupRouteTable`: messages with
`AF_INET` (2) feed the v4 slice, messages with `AF_INET6` (10) feed the v6
slice, in message order; other families are skipped. -/
def ingestV4 (msgs : List NetlinkRouteMsg) : List rtInfo :=
  (msgs.filter (fun m => m.family == 2)).map buildRtInfo

/-- The v6 counterpart of `ingestV4`. -/
def ingestV6 (msgs : List NetlinkRouteMsg) : List rtInfo :=
  (msgs.filter (fun m => m.family == 10)).map buildRtInfo

/-- `net.Interface` restricted to the fields the routing code reads: the
interface index and its hardware address. -/
structure NetInterface where
  Index : Int
  HardwareAddr : List Nat
deriving DecidableEq, Repr

/-- `ipAddrs` from `routing.go`: an interface's assigned networks, one list
per address family. -/
structure ipAddrs where
  v4 : List IPNet
  v6 : List IPNet
deriving DecidableEq, Repr

/-- `router` from `routing.go`.  The two Go maps are association lists with
a fixed iteration order (Go's map iteration order is unspecified). -/
structure router where
  ifaces : List (Int × NetInterface)
  addrs : List (Int × ipAddrs)
  v4 : List rtInfo
  v6 : List rtInfo
deriving DecidableEq, Repr

/-- `setupRouteTable` of `routing_linux.go` as a relation between the
parsed RTM_NEWROUTE messages and the resulting table pair: each family
partition is a `sort.Sort` output (sorted permutation) of the records
ingested in message order. -/
def SetupRouteTable (msgs : List NetlinkRouteMsg) (r : router) : Prop :=
  GoSorted (ingestV4 msgs) r.v4 ∧ GoSorted (ingestV6 msgs) r.v6

/-- The error outcomes of `router.route` / `router.RouteWithSrc`, in the
order the Go code produces them (`fmt.Errorf` values, distinguished here by
their message). -/
inductive RouteErr where
  | NoRouteFound
  | NoOutputInterfaceFound
  | NoSourceFound
  | InvalidAddress
deriving DecidableEq, Repr

instance {ε α : Type} [DecidableEq ε] [DecidableEq α] : DecidableEq (Except ε α) := fun a b =>
  match a, b with
  | .ok x, .ok y =>
    if h : x = y then .isTrue (by rw [h]) else .isFalse (by simp [h])
  | .error x, .error y =>
    if h : x = y then .isTrue (by rw [h]) else .isFalse (by simp [h])
  | .ok _, .error _ => .isFalse (by simp)
  | .error _, .ok _ => .isFalse (by simp)

/-- The family selection `if ipv6 { rs = r.v6 } else { rs = r.v4 }`. -/
def famTable (r : router) (ipv6 : Bool) : List rtInfo :=
  if ipv6 then r.v6 else r.v4

/-- The family selection on an interface's address lists
(`if ipv6 { addrs = ifaceAddrs.v6 } else { addrs = ifaceAddrs.v4 }`). -/
def famAddrs (ia : ipAddrs) (ipv6 : Bool) : List IPNet :=
  if ipv6 then ia.v6 else ia.v4

/-- The match conditions of the scan loop in `router.route`: destination
containment, source containment, and the input-interface test
`!(rt.InputIface != 0 && input != 0 && rt.InputIface != input)`. -/
def routeMatches (input : Int) (src dst : List Nat) (rt : rtInfo) : Bool :=
  containsIP rt.Dst dst && containsIP rt.Src src &&
    !(rt.InputIface != 0 && input != 0 && rt.InputIface != input)

/-- Gateway derivation in `router.route`: a nil or unspecified route gateway
means the destination itself is the gateway. -/
def gatewayOf (rt : rtInfo) (dst : List Nat) : List Nat :=
  match rt.Gateway with
  | none => dst
  | some g => if isUnspecified g then dst else g

/-- Go map indexing `r.addrs[i]` with its present flag. -/
def lookupAddrs (m : List (Int × ipAddrs)) (k : Int) : Option ipAddrs :=
  (m.find? (fun p => p.1 == k)).map (fun p => p.2)

/-- Go map indexing `r.ifaces[i]` (a missing key yields a nil pointer,
modelled as `none`). -/
def lookupIface (m : List (Int × NetInterface)) (k : Int) : Option NetInterface :=
  (m.find? (fun p => p.1 == k)).map (fun p => p.2)

/-- The all-interfaces equality scan of `router.route` (output interface not
pinned, `PrefSrc` set): every address of every interface is visited and each
address containing the gateway and equal to `PrefSrc` overwrites the result,
so the last such address in iteration order wins, exactly as the Go loops
overwrite `iface` and `preferredSrc` without breaking. -/
def scanEqAll (addrs : List (Int × ipAddrs)) (ipv6 : Bool) (gateway prefSrc : List Nat) :
    Option (Int × List Nat) :=
  addrs.foldl
    (fun acc p =>
      (famAddrs p.2 ipv6).foldl
        (fun acc2 each =>
          if containsIP each gateway && ipEqual each.ip prefSrc then
            some (p.1, each.ip)
          else acc2)
        acc)
    none

/-- The all-interfaces containment scan of `router.route` (output interface
not pinned): the last address in iteration order containing the gateway
wins. -/
def scanContainAll (addrs : List (Int × ipAddrs)) (ipv6 : Bool) (gateway : List Nat) :
    Option (Int × List Nat) :=
  addrs.foldl
    (fun acc p =>
      (famAddrs p.2 ipv6).foldl
        (fun acc2 each =>
          if containsIP each gateway then some (p.1, each.ip) else acc2)
        acc)
    none

/-- The single-interface equality scan of `router.route` (output interface
pinned, `PrefSrc` set). -/
def scanEqList (addrs : List IPNet) (gateway prefSrc : List Nat) : Option (List Nat) :=
  addrs.foldl
    (fun acc each =>
      if containsIP each gateway && ipEqual each.ip prefSrc then some each.ip
      else acc)
    none

/-- The single-interface containment scan of `router.route` (output
interface pinned). -/
def scanContainList (addrs : List IPNet) (gateway : List Nat) : Option (List Nat) :=
  addrs.foldl
    (fun acc each => if containsIP each gateway then some each.ip else acc)
    none

/-- The tail of `router.route` after the table scan: gateway derivation,
output-interface and preferred-source derivation, and the error returns, as
a function of the scan result. -/
def routeAfterMatch (r : router) (dst : List Nat) (ipv6 : Bool) :
    Option rtInfo → Except RouteErr (Int × List Nat × List Nat)
  | none => .error .NoRouteFound
  | some rt =>
    let gateway := gatewayOf rt dst
    if rt.OutputIface == 0 then
      let first :=
        if rt.PrefSrc.isSome then
          scanEqAll r.addrs ipv6 gateway (rt.PrefSrc.getD [])
        else none
      match first with
      | some p => .ok (p.1, gateway, p.2)
      | none =>
        match scanContainAll r.addrs ipv6 gateway with
        | some p => .ok (p.1, gateway, p.2)
        | none => .error .NoSourceFound
    else
      match lookupAddrs r.addrs rt.OutputIface with
      | none => .error .NoOutputInterfaceFound
      | some ia =>
        let addrsL := famAddrs ia ipv6
        let first :=
          if rt.PrefSrc.isSome then
            scanEqList addrsL gateway (rt.PrefSrc.getD [])
          else none
        match first with
        | some ps => .ok (rt.OutputIface, gateway, ps)
        | none =>
          match scanContainList addrsL gateway with
          | some ps => .ok (rt.OutputIface, gateway, ps)
          | none => .error .NoSourceFound

/-- `router.route` from `routing.go`: scan the family table for the first
record matching `routeMatches`, then derive gateway, output interface and
preferred source. -/
def route (r : router) (input : Int) (src dst : List Nat) (ipv6 : Bool) :
    Except RouteErr (Int × List Nat × List Nat) :=
  routeAfterMatch r dst ipv6 ((famTable r ipv6).find? (routeMatches input src dst))

/-- The input-interface resolution at the top of `router.RouteWithSrc`: a
nil hardware address leaves the index 0; a non-nil one is looked up by
hardware-address equality over the interface map, and -1 records a failed
lookup. -/
def inputIndexOf (ifaces : List (Int × NetInterface)) (input : Option (List Nat)) : Int :=
  match input with
  | none => 0
  | some hw =>
    match ifaces.find? (fun p => p.2.HardwareAddr == hw) with
    | some p => p.1
    | none => -1

/-- `router.RouteWithSrc` from `routing.go`: resolve the input interface
index, dispatch on the destination's family (`To4`, then `To16`, else an
invalid-address error), and on success look the returned interface index up
in the interface map. -/
def RouteWithSrc (r : router) (input : Option (List Nat)) (src dst : List Nat) :
    Except RouteErr (Option NetInterface × List Nat × List Nat) :=
  let inputIndex := inputIndexOf r.ifaces input
  let res :=
    if (ipTo4 dst).isSome then route r inputIndex src dst false
    else if (ipTo16 dst).isSome then route r inputIndex src dst true
    else .error .InvalidAddress
  match res with
  | .error e => .error e
  | .ok (i, gw, ps) => .ok (lookupIface r.ifaces i, gw, ps)

instance (l : List rtInfo) : Decidable (SortedRt l) :=
  inferInstanceAs (Decidable (l.Pairwise _))

instance (input output : List rtInfo) : Decidable (GoSorted input output) :=
  inferInstanceAs (Decidable (_ ∧ _))

instance (msgs : List NetlinkRouteMsg) (r : router) : Decidable (SetupRouteTable msgs r) :=
  inferInstanceAs (Decidable (_ ∧ _))

/-- A successful `find?` returns an element satisfying the predicate, and
every element of the list before it fails the predicate. -/
theorem find?_eq_some_split {α : Type} {p : α → Bool} :
    ∀ {l : List α} {a : α}, l.find? p = some a →
      p a = true ∧ ∃ l₁ l₂, l = l₁ ++ a :: l₂ ∧ ∀ x ∈ l₁, p x = false := by
  intro l
  induction l with
  | nil => intro a h; simp [List.find?] at h
  | cons x xs ih =>
    intro a h
    rw [List.find?_cons] at h
    by_cases hx : p x = true
    · simp only [hx, cond_true] at h
      cases h
      exact ⟨hx, [], xs, rfl, by simp⟩
    · simp only [Bool.not_eq_true] at hx
      simp only [hx, cond_false] at h
      obtain ⟨hpa, l₁, l₂, hsplit, hall⟩ := ih h
      refine ⟨hpa, x :: l₁, l₂, by rw [hsplit]; rfl, ?_⟩
      intro y hy
      rcases List.mem_cons.mp hy with hy | hy
      · rw [hy]; exact hx
      · exact hall y hy

/-- `find?` only depends on the predicate's values on list members. -/
theorem find?_congr_mem {α : Type} {p q : α → Bool} :
    ∀ {l : List α}, (∀ x ∈ l, p x = q x) → l.find? p = l.find? q := by
  intro l
  induction l with
  | nil => intro _; rfl
  | cons x xs ih =>
    intro h
    rw [List.find?_cons, List.find?_cons, h x (List.mem_cons_self x xs),
      ih (fun y hy => h y (List.mem_cons_of_mem x hy))]

/-- The match predicate of the scan loop, spelled out: destination
containment, source containment, and the disjunctive form of the
input-interface condition. -/
theorem routeMatches_iff (input : Int) (src dst : List Nat) (e : rtInfo) :
    routeMatches input src dst e = true ↔
      containsIP e.Dst dst = true ∧ containsIP e.Src src = true ∧
        (e.InputIface = 0 ∨ input = 0 ∨ e.InputIface = input) := by
  simp only [routeMatches, Bool.and_eq_true, Bool.not_eq_true',
    Bool.and_eq_false_iff, bne_eq_false_iff_eq, and_assoc, or_assoc]

/-- `To4` only succeeds with a 4-byte result. -/
theorem ipTo4_length (ip x : List Nat) (h : ipTo4 ip = some x) : x.length = 4 := by
  unfold ipTo4 at h
  by_cases h4 : ip.length = 4
  · simp only [h4, beq_self_eq_true, if_true] at h
    cases h
    exact h4
  · have : (ip.length == 4) = false := by simpa using h4
    rw [this] at h
    simp only [Bool.false_eq_true, if_false] at h
    by_cases h16 : (ip.length == 16 && isZeros (ip.take 10)
        && ip.getD 10 0 == 0xff && ip.getD 11 0 == 0xff) = true
    · rw [if_pos h16] at h
      cases h
      have hlen : ip.length = 16 := by
        simp only [Bool.and_eq_true, beq_iff_eq] at h16
        exact h16.1.1.1
      simp [List.length_drop, hlen]
    · rw [if_neg h16] at h
      cases h

/-- A permutation of a two-element list is one of its two arrangements. -/
theorem perm_pair_inv {α : Type} {a b : α} [DecidableEq α] :
    ∀ {l : List α}, List.Perm [a, b] l → l = [a, b] ∨ l = [b, a] := by
  intro l h
  match l, h.length_eq.symm with
  | [x, y], _ =>
    by_cases hxa : x = a
    · subst hxa
      have hby : List.Perm [b] [y] := List.Perm.cons_inv h
      have hy : [b] = [y] := List.perm_singleton.mp hby.symm |>.symm
      left
      rw [List.cons.injEq] at hy
      rw [hy.1]
    · have hx : x ∈ [a, b] := h.mem_iff.mpr (by simp)
      have hxb : x = b := by
        rcases List.mem_cons.mp hx with hx1 | hx1
        · exact absurd hx1 hxa
        · simpa using hx1
      subst hxb
      have hba : List.Perm [x, a] [a, x] := List.Perm.swap a x []
      have hay : List.Perm [a] [y] := List.Perm.cons_inv (hba.trans h)
      have hy : [a] = [y] := List.perm_singleton.mp hay.symm |>.symm
      right
      rw [List.cons.injEq] at hy
      rw [← hy.1]

/-- Containment in the zero-value prefix fails for every non-empty address:
`networkNumberAndMask` yields a nil network number there, so the length
check of `Contains` rejects any address that is non-empty (after `To4`
narrowing, which always produces 4 bytes). -/
theorem contains_zero_false (src : List Nat) (h : src ≠ []) :
    containsIP zeroIPNet src = false := by
  unfold containsIP
  rw [show networkNumberAndMask zeroIPNet = none from rfl]
  cases hip : ipTo4 src with
  | some x =>
    have hx : x.length = 4 := ipTo4_length src x hip
    simp [hip, hx]
  | none =>
    have hlen : src.length ≠ 0 := by
      simpa [List.length_eq_zero] using h
    simp [hip, hlen]

/-- The order consequence of a false `routeSlice.Less` comparison of a later
entry against an earlier one: mask bit counts do not increase, and on equal
bit counts the (priority, metric) pair does not lexicographically
decrease. -/
theorem lessRt_false_order {a b : rtInfo} (h : lessRt b a = false) :
    countMaskOnes b.Dst.mask ≤ countMaskOnes a.Dst.mask ∧
      (countMaskOnes a.Dst.mask = countMaskOnes b.Dst.mask →
        a.Priority < b.Priority ∨ (a.Priority = b.Priority ∧ a.Metrics ≤ b.Metrics)) := by
  simp only [lessRt] at h
  split at h
  · next hones =>
    rw [beq_iff_eq] at hones
    split at h
    · next hprio =>
      rw [beq_iff_eq] at hprio
      rw [decide_eq_false_iff_not] at h
      exact ⟨le_of_eq hones, fun _ => Or.inr ⟨hprio.symm, le_of_not_lt h⟩⟩
    · next hprio =>
      have hne : b.Priority ≠ a.Priority := by simpa using hprio
      rw [decide_eq_false_iff_not] at h
      exact ⟨le_of_eq hones, fun _ => Or.inl (by omega)⟩
  · next hones =>
    have hne : countMaskOnes b.Dst.mask ≠ countMaskOnes a.Dst.mask := by simpa using hones
    rw [decide_eq_false_iff_not] at h
    exact ⟨by omega, fun heq => absurd heq.symm hne⟩

/-- The spec's ordering invariant on one family partition: destination mask
bit counts are non-increasing along the table, and among equal bit counts
the (priority, metric) pairs are lexicographically non-decreasing. -/
def OrderingInvariant (l : List rtInfo) : Prop :=
  l.Pairwise (fun a b =>
    countMaskOnes b.Dst.mask ≤ countMaskOnes a.Dst.mask ∧
      (countMaskOnes a.Dst.mask = countMaskOnes b.Dst.mask →
        a.Priority < b.Priority ∨ (a.Priority = b.Priority ∧ a.Metrics ≤ b.Metrics)))

/-- A /8 route entry for 10.0.0.0 with no other constraints. -/
def lpmE8 : rtInfo := { zeroRtInfo with Dst := ⟨[10, 0, 0, 0], [255, 0, 0, 0]⟩ }

/-- A /16 route entry for 10.1.0.0 with no other constraints. -/
def lpmE16 : rtInfo := { zeroRtInfo with Dst := ⟨[10, 1, 0, 0], [255, 255, 0, 0]⟩ }

/-- A router whose v4 table has only the 10.0.0.0/8 entry. -/
def c1Rtr : router := { ifaces := [], addrs := [], v4 := [lpmE8], v6 := [] }

/-- C1: `router.route` scans the family partition in table order and the
match is the first entry satisfying destination containment, source
containment and the input-interface condition; if no entry of the partition
satisfies all three, the route call fails with the no-route-found error. -/
theorem c1_route_scan (r : router) (input : Int) (src dst : List Nat) (ipv6 : Bool) :
    (∀ e : rtInfo, (famTable r ipv6).find? (routeMatches input src dst) = some e →
      (containsIP e.Dst dst = true ∧ containsIP e.Src src = true ∧
          (e.InputIface = 0 ∨ input = 0 ∨ e.InputIface = input)) ∧
        ∃ l₁ l₂, famTable r ipv6 = l₁ ++ e :: l₂ ∧
          ∀ x ∈ l₁, ¬(containsIP x.Dst dst = true ∧ containsIP x.Src src = true ∧
            (x.InputIface = 0 ∨ input = 0 ∨ x.InputIface = input))) ∧
    ((∀ e ∈ famTable r ipv6, ¬(containsIP e.Dst dst = true ∧ containsIP e.Src src = true ∧
        (e.InputIface = 0 ∨ input = 0 ∨ e.InputIface = input))) →
      route r input src dst ipv6 = .error .NoRouteFound) := by
  constructor
  · intro e he
    obtain ⟨hpe, l₁, l₂, hsplit, hall⟩ := find?_eq_some_split he
    refine ⟨(routeMatches_iff input src dst e).mp hpe, l₁, l₂, hsplit, ?_⟩
    intro x hx hcond
    have hq := (routeMatches_iff input src dst x).mpr hcond
    rw [hall x hx] at hq
    exact Bool.false_ne_true hq
  · intro hnone
    have hfn : (famTable r ipv6).find? (routeMatches input src dst) = none := by
      rw [List.find?_eq_none]
      intro x hx hpx
      exact hnone x hx ((routeMatches_iff input src dst x).mp hpx)
    rw [route, hfn]
    rfl

/-- Witness for C1 at the spec's no-match example: a table holding only
10.0.0.0/8 rejects 8.8.8.8 with the no-route-found error. -/
theorem c1_route_scan_witness :
    route c1Rtr 0 [] [8, 8, 8, 8] false = .error .NoRouteFound :=
  (c1_route_scan c1Rtr 0 [] [8, 8, 8, 8] false).2 (by decide)

/-- One RTM_NEWROUTE message (10.0.0.0/8 via RTA_DST) for the C2 witness. -/
def c2Msgs : List NetlinkRouteMsg := [⟨2, 8, 0, [⟨1, [10, 0, 0, 0]⟩]⟩]

/-- A router holding the table built from `c2Msgs`. -/
def c2Rtr : router :=
  { ifaces := [], addrs := [], v4 := [lpmE8], v6 := [] }

/-- C2: after construction (family partitioning followed by the sort), each
family partition satisfies the ordering invariant: destination mask bit
counts non-increasing, and (priority, metric) lexicographically
non-decreasing among equal bit counts. -/
theorem c2_ordering_invariant (msgs : List NetlinkRouteMsg) (r : router)
    (h : SetupRouteTable msgs r) :
    OrderingInvariant r.v4 ∧ OrderingInvariant r.v6 := by
  obtain ⟨⟨_, h4⟩, ⟨_, h6⟩⟩ := h
  exact ⟨List.Pairwise.imp (fun hab => lessRt_false_order hab) h4,
         List.Pairwise.imp (fun hab => lessRt_false_order hab) h6⟩

/-- Witness for C2: a concrete construction satisfying `SetupRouteTable`
yields the invariant. -/
theorem c2_ordering_invariant_witness :
    OrderingInvariant c2Rtr.v4 ∧ OrderingInvariant c2Rtr.v6 :=
  c2_ordering_invariant c2Msgs c2Rtr (by decide)

/-- C3: whichever order the 10.0.0.0/8 and 10.1.0.0/16 entries were supplied
to construction, the built table puts the /16 first, so resolving 10.1.2.3
matches the /16 entry and never the /8 entry. -/
theorem c3_lpm (out : List rtInfo)
    (h : GoSorted [lpmE8, lpmE16] out ∨ GoSorted [lpmE16, lpmE8] out) :
    out.find? (routeMatches 0 [] [10, 1, 2, 3]) = some lpmE16 ∧
      out.find? (routeMatches 0 [] [10, 1, 2, 3]) ≠ some lpmE8 := by
  have hps : List.Perm [lpmE8, lpmE16] out ∧ SortedRt out := by
    rcases h with ⟨hp, hs⟩ | ⟨hp, hs⟩
    · exact ⟨hp, hs⟩
    · exact ⟨(List.Perm.swap lpmE16 lpmE8 []).trans hp, hs⟩
  obtain ⟨hp, hs⟩ := hps
  rcases perm_pair_inv hp with h1 | h1
  · exfalso
    rw [h1] at hs
    unfold SortedRt at hs
    have hpair := List.pairwise_cons.mp hs
    have hfalse := hpair.1 lpmE16 (by simp)
    exact absurd hfalse (by decide)
  · rw [h1]
    exact ⟨by decide, by decide⟩

/-- Witness for C3 at the sorted table [lpmE16, lpmE8]. -/
theorem c3_lpm_witness :
    List.find? (routeMatches 0 [] [10, 1, 2, 3]) [lpmE16, lpmE8] = some lpmE16 ∧
      List.find? (routeMatches 0 [] [10, 1, 2, 3]) [lpmE16, lpmE8] ≠ some lpmE8 :=
  c3_lpm [lpmE16, lpmE8] (Or.inl (by decide))

/-- A router whose only v4 entry is the unconstrained 10.0.0.0/8 route, with
one interface carrying 10.0.0.1/8. -/
def c4Rtr : router :=
  { ifaces := [(1, ⟨1, [1, 2, 3, 4, 5, 6]⟩)],
    addrs := [(1, ⟨[⟨[10, 0, 0, 1], [255, 0, 0, 0]⟩], []⟩)],
    v4 := [lpmE8],
    v6 := [] }

/-- Counterexample to C4: the zero-value (absent) source prefix does not
contain the present source 10.0.0.1, and the entry with absent source is
therefore skipped on source grounds, while the same query without a source
hint succeeds. -/
theorem c4_cex :
    containsIP zeroIPNet [10, 0, 0, 1] = false ∧
      lpmE8.Src = zeroIPNet ∧
      route c4Rtr 0 [10, 0, 0, 1] [10, 0, 0, 2] false = .error .NoRouteFound ∧
      route c4Rtr 0 [] [10, 0, 0, 2] false = .ok (1, [10, 0, 0, 2], [10, 0, 0, 1]) := by
  refine ⟨by decide, by decide, by decide, by decide⟩

/-- C4 (amended): an entry whose source prefix is absent (the zero value)
passes the source containment test exactly for the absent (nil/empty) source
argument; every present source fails it (the length comparison of
`Contains` rejects it), so the entry is skipped whenever a source hint is
supplied. -/
theorem c4_amended (e : rtInfo) (h : e.Src = zeroIPNet) (src : List Nat) :
    containsIP e.Src src = true ↔ src = [] := by
  rw [h]
  constructor
  · intro hc
    by_contra hne
    rw [contains_zero_false src hne] at hc
    exact Bool.false_ne_true hc
  · intro h2
    subst h2
    decide

/-- Witness for the amended C4 at the zero entry and the empty source. -/
theorem c4_amended_witness : containsIP zeroRtInfo.Src [] = true :=
  (c4_amended zeroRtInfo rfl []).mpr rfl

/-- The scan result, and hence the whole of `route`, does not depend on the
input-interface argument when no entry of the scanned partition constrains
the input interface. -/
theorem route_input_irrel (r : router) (src dst : List Nat) (b : Bool) (i j : Int)
    (h : ∀ e ∈ famTable r b, e.InputIface = 0) :
    route r i src dst b = route r j src dst b := by
  have h' : ∀ x ∈ famTable r b, routeMatches i src dst x = routeMatches j src dst x := by
    intro x hx
    unfold routeMatches
    rw [h x hx]
    simp
  rw [route, route, find?_congr_mem h']

/-- The 10.0.0.0/8 entry pinned to input interface 3. -/
def e5 : rtInfo := { lpmE8 with InputIface := 3 }

/-- A router with one interface (hardware address 01:02:03:04:05:06) and a
v4 table holding only the input-interface-pinned entry `e5`. -/
def c5Rtr : router :=
  { ifaces := [(1, ⟨1, [1, 2, 3, 4, 5, 6]⟩)],
    addrs := [(1, ⟨[⟨[10, 0, 0, 1], [255, 0, 0, 0]⟩], []⟩)],
    v4 := [e5],
    v6 := [] }

/-- Counterexample to C5: with a non-nil hardware address matching no
interface, `RouteWithSrc` fails with no-route-found, while the same call
with a nil hardware address succeeds — the unmatched address is mapped to
input index -1, which excludes entries pinned to an input interface. -/
theorem c5_cex :
    (∀ p ∈ c5Rtr.ifaces, p.2.HardwareAddr ≠ [9, 9, 9, 9, 9, 9]) ∧
      RouteWithSrc c5Rtr (some [9, 9, 9, 9, 9, 9]) [] [10, 1, 2, 3] = .error .NoRouteFound ∧
      RouteWithSrc c5Rtr none [] [10, 1, 2, 3]
        = .ok (some ⟨1, [1, 2, 3, 4, 5, 6]⟩, [10, 1, 2, 3], [10, 0, 0, 1]) := by
  refine ⟨by decide, by decide, by decide⟩

/-- C5 (amended): an unmatched non-nil hardware address yields input index
-1 rather than 0, so `RouteWithSrc` agrees with the nil-address call exactly
under the condition that no entry of the destination's family partition
(v4 when `To4` succeeds, v6 when only `To16` succeeds, and no condition at
all for an invalid destination) constrains the input interface; the lookup
failure itself is still not a hard failure. -/
theorem c5_amended (r : router) (hw src dst : List Nat)
    (hfind : r.ifaces.find? (fun p => p.2.HardwareAddr == hw) = none)
    (h4 : (ipTo4 dst).isSome = true → ∀ e ∈ r.v4, e.InputIface = 0)
    (h6 : (ipTo4 dst).isSome = false → (ipTo16 dst).isSome = true →
      ∀ e ∈ r.v6, e.InputIface = 0) :
    RouteWithSrc r (some hw) src dst = RouteWithSrc r none src dst := by
  have hidx : inputIndexOf r.ifaces (some hw) = -1 := by
    simp only [inputIndexOf, hfind]
  have hidx0 : inputIndexOf r.ifaces none = 0 := rfl
  cases hc4 : (ipTo4 dst).isSome with
  | true =>
    have hr4 : route r (-1) src dst false = route r 0 src dst false :=
      route_input_irrel r src dst false (-1) 0 (h4 hc4)
    simp only [RouteWithSrc, hidx, hidx0, hc4, if_true, hr4]
  | false =>
    cases hc16 : (ipTo16 dst).isSome with
    | true =>
      have hr6 : route r (-1) src dst true = route r 0 src dst true :=
        route_input_irrel r src dst true (-1) 0 (h6 hc4 hc16)
      simp only [RouteWithSrc, hidx, hidx0, hc4, hc16, Bool.false_eq_true,
        if_false, if_true, hr6]
    | false =>
      simp only [RouteWithSrc, hidx, hidx0, hc4, hc16, Bool.false_eq_true,
        if_false]

/-- A router like `c5Rtr` whose only entry has no input-interface pin. -/
def c5RtrNoPin : router :=
  { ifaces := [(1, ⟨1, [1, 2, 3, 4, 5, 6]⟩)],
    addrs := [(1, ⟨[⟨[10, 0, 0, 1], [255, 0, 0, 0]⟩], []⟩)],
    v4 := [lpmE8],
    v6 := [] }

/-- Witness for the amended C5: with no input-interface pins, the unmatched
hardware address and the nil hardware address agree. -/
theorem c5_amended_witness :
    RouteWithSrc c5RtrNoPin (some [9, 9, 9, 9, 9, 9]) [] [10, 1, 2, 3]
      = RouteWithSrc c5RtrNoPin none [] [10, 1, 2, 3] :=
  c5_amended c5RtrNoPin [9, 9, 9, 9, 9, 9] [] [10, 1, 2, 3] (by decide) (by decide) (by decide)

/-- The 10.0.0.0/8 entry pinned to output interface 5. -/
def e6 : rtInfo := { lpmE8 with OutputIface := 5 }

/-- A router where interface 5 exists and has an address list, but none of
its addresses matches the gateway derived for a 10.0.0.0/8 destination. -/
def c6Rtr : router :=
  { ifaces := [(5, ⟨5, [1, 1, 1, 1, 1, 1]⟩)],
    addrs := [(5, ⟨[⟨[192, 168, 1, 10], [255, 255, 255, 0]⟩], []⟩)],
    v4 := [e6],
    v6 := [] }

/-- Counterexample to C6: the matched entry pins output interface 5, which
is present in the address index but whose only v4 address neither equals a
preferred source (none is set) nor contains the gateway 10.1.2.3; the code
fails with the no-source-found error, not no-output-interface-found. -/
theorem c6_cex :
    lookupAddrs c6Rtr.addrs 5 = some ⟨[⟨[192, 168, 1, 10], [255, 255, 255, 0]⟩], []⟩ ∧
      containsIP ⟨[192, 168, 1, 10], [255, 255, 255, 0]⟩ [10, 1, 2, 3] = false ∧
      route c6Rtr 0 [] [10, 1, 2, 3] false = .error .NoSourceFound ∧
      route c6Rtr 0 [] [10, 1, 2, 3] false ≠ .error .NoOutputInterfaceFound := by
  refine ⟨by decide, by decide, by decide, by decide⟩

/-- C6 (amended): when the matched entry pins an output interface, the
no-output-interface-found error is raised exactly when that interface is
absent from the address index; when it is present but none of its
family-matching addresses equals the preferred source or contains the
gateway, the no-source-found error is raised instead. -/
theorem c6_amended (r : router) (input : Int) (src dst : List Nat) (ipv6 : Bool) (rt : rtInfo)
    (hfind : (famTable r ipv6).find? (routeMatches input src dst) = some rt)
    (hpin : rt.OutputIface ≠ 0) :
    (lookupAddrs r.addrs rt.OutputIface = none →
        route r input src dst ipv6 = .error .NoOutputInterfaceFound) ∧
    (∀ ia, lookupAddrs r.addrs rt.OutputIface = some ia →
        scanEqList (famAddrs ia ipv6) (gatewayOf rt dst) (rt.PrefSrc.getD []) = none →
        scanContainList (famAddrs ia ipv6) (gatewayOf rt dst) = none →
        route r input src dst ipv6 = .error .NoSourceFound) := by
  have hne : (rt.OutputIface == 0) = false := by
    simpa using hpin
  constructor
  · intro hlk
    rw [route, hfind]
    simp only [routeAfterMatch, hne, Bool.false_eq_true, if_false, hlk]
  · intro ia hlk h1 h2
    rw [route, hfind]
    cases hps : rt.PrefSrc with
    | some v =>
      have h1' : scanEqList (famAddrs ia ipv6) (gatewayOf rt dst) v = none := by
        rw [hps] at h1
        simpa using h1
      simp only [routeAfterMatch, hne, Bool.false_eq_true, if_false, hlk, hps,
        Option.isSome_some, if_true, Option.getD_some, h1', h2]
    | none =>
      simp only [routeAfterMatch, hne, Bool.false_eq_true, if_false, hlk, hps,
        Option.isSome_none, Bool.false_eq_true, if_false, h2]

/-- A router where the pinned output interface 5 is absent from the address
index. -/
def c6RtrNoIface : router :=
  { ifaces := [], addrs := [], v4 := [e6], v6 := [] }

/-- Witness for the amended C6: a pinned interface missing from the address
index yields the no-output-interface-found error. -/
theorem c6_amended_witness :
    route c6RtrNoIface 0 [] [10, 1, 2, 3] false = .error .NoOutputInterfaceFound :=
  (c6_amended c6RtrNoIface 0 [] [10, 1, 2, 3] false e6 (by decide) (by decide)).1 rfl

/-- The 10.0.0.0/8 entry with gateway 10.0.0.254 and a preferred source
172.16.0.1 that is assigned to no interface. -/
def e7 : rtInfo :=
  { lpmE8 with Gateway := some [10, 0, 0, 254], PrefSrc := some [172, 16, 0, 1] }

/-- A router where interface 1's address 10.0.0.1/8 contains `e7`'s gateway
but differs from its preferred source. -/
def c7Rtr : router :=
  { ifaces := [(1, ⟨1, [1, 2, 3, 4, 5, 6]⟩)],
    addrs := [(1, ⟨[⟨[10, 0, 0, 1], [255, 0, 0, 0]⟩], []⟩)],
    v4 := [e7],
    v6 := [] }

/-- C7: when the matched entry's preferred source is set but the equality
scan finds no assigned address equal to it, while the containment scan of
the entry's output-interface branch finds an address containing the derived
gateway, resolution succeeds with that containing address — the containment
fallback precedes the no-source-found failure, in both branches. -/
theorem c7_source_fallback (r : router) (input : Int) (src dst : List Nat) (ipv6 : Bool)
    (rt : rtInfo) (ps : List Nat)
    (hfind : (famTable r ipv6).find? (routeMatches input src dst) = some rt)
    (hps : rt.PrefSrc = some ps) :
    (rt.OutputIface = 0 →
        scanEqAll r.addrs ipv6 (gatewayOf rt dst) ps = none →
        ∀ i a, scanContainAll r.addrs ipv6 (gatewayOf rt dst) = some (i, a) →
          route r input src dst ipv6 = .ok (i, gatewayOf rt dst, a)) ∧
    (rt.OutputIface ≠ 0 →
        ∀ ia, lookupAddrs r.addrs rt.OutputIface = some ia →
          scanEqList (famAddrs ia ipv6) (gatewayOf rt dst) ps = none →
          ∀ a, scanContainList (famAddrs ia ipv6) (gatewayOf rt dst) = some a →
            route r input src dst ipv6 = .ok (rt.OutputIface, gatewayOf rt dst, a)) := by
  constructor
  · intro h0 heq i a hcont
    have h0' : (rt.OutputIface == 0) = true := by simpa using h0
    rw [route, hfind]
    simp only [routeAfterMatch, h0', if_true, hps, Option.isSome_some,
      Option.getD_some, heq, hcont]
  · intro hpin ia hlk heq a hcont
    have hne : (rt.OutputIface == 0) = false := by simpa using hpin
    rw [route, hfind]
    simp only [routeAfterMatch, hne, Bool.false_eq_true, if_false, hlk, hps,
      Option.isSome_some, if_true, Option.getD_some, heq, hcont]

/-- Witness for C7 at the spec's source-fallback scenario: the unassigned
preferred source 172.16.0.1 is silently replaced by interface 1's containing
address 10.0.0.1. -/
theorem c7_source_fallback_witness :
    route c7Rtr 0 [] [10, 1, 2, 3] false = .ok (1, [10, 0, 0, 254], [10, 0, 0, 1]) :=
  (c7_source_fallback c7Rtr 0 [] [10, 1, 2, 3] false e7 [172, 16, 0, 1]
      (by decide) rfl).1 rfl (by decide) 1 [10, 0, 0, 1] (by decide)

/-- A router with an interface holding 192.168.1.10/24 and a v4 table whose
only entry is the on-link 192.168.1.0/24 route (no gateway, no output
interface). -/
def c8Rtr : router :=
  { ifaces := [(1, ⟨1, [170, 187, 204, 0, 0, 1]⟩)],
    addrs := [(1, ⟨[⟨[192, 168, 1, 10], [255, 255, 255, 0]⟩], []⟩)],
    v4 := [{ zeroRtInfo with Dst := ⟨[192, 168, 1, 0], [255, 255, 255, 0]⟩ }],
    v6 := [] }

/-- C8: resolving 192.168.1.50 against the on-link 192.168.1.0/24 entry
yields the destination itself as gateway and 192.168.1.10 as preferred
source, with interface 1 as the output interface. -/
theorem c8_directly_connected :
    route c8Rtr 0 [] [192, 168, 1, 50] false
        = .ok (1, [192, 168, 1, 50], [192, 168, 1, 10]) ∧
      RouteWithSrc c8Rtr none [] [192, 168, 1, 50]
        = .ok (some ⟨1, [170, 187, 204, 0, 0, 1]⟩, [192, 168, 1, 50], [192, 168, 1, 10]) ∧
      (∀ e ∈ c8Rtr.v4, e.Gateway = none ∧ e.OutputIface = 0) := by
  refine ⟨by decide, by decide, by decide⟩

/-- An attribute whose type is not RTA_DST leaves the destination field of
the record under construction unchanged. -/
theorem applyAttr_dst_of_ne (dstLen srcLen : Nat) (info : rtInfo) (a : NetlinkRouteAttr)
    (h : a.typ ≠ 1) : (applyAttr dstLen srcLen info a).Dst = info.Dst := by
  have h1 : (a.typ == 1) = false := by simpa using h
  unfold applyAttr
  rw [h1]
  simp only [Bool.false_eq_true, if_false]
  split_ifs <;> rfl

/-- C10: a message carrying no RTA_DST attribute builds a record whose
destination is the zero-value prefix; that prefix contains no 4-byte or
16-byte destination, so such a record can never be the entry returned by the
table scan of `route`. -/
theorem c10_zero_dst :
    (∀ m : NetlinkRouteMsg, (∀ a ∈ m.attrs, a.typ ≠ 1) →
        (buildRtInfo m).Dst = zeroIPNet) ∧
    (∀ dst : List Nat, dst.length = 4 ∨ dst.length = 16 →
        containsIP zeroIPNet dst = false) ∧
    (∀ (rs : List rtInfo) (input : Int) (src dst : List Nat) (e : rtInfo),
        dst.length = 4 ∨ dst.length = 16 → e.Dst = zeroIPNet →
        rs.find? (routeMatches input src dst) ≠ some e) := by
  have hlen : ∀ dst : List Nat, dst.length = 4 ∨ dst.length = 16 → dst ≠ [] := by
    intro dst h hnil
    subst hnil
    simp at h
  refine ⟨?_, ?_, ?_⟩
  · intro m hm
    unfold buildRtInfo
    have aux : ∀ (attrs : List NetlinkRouteAttr) (acc : rtInfo),
        (∀ a ∈ attrs, a.typ ≠ 1) → acc.Dst = zeroIPNet →
        (attrs.foldl (applyAttr m.dstLen m.srcLen) acc).Dst = zeroIPNet := by
      intro attrs
      induction attrs with
      | nil => intro acc _ hacc; exact hacc
      | cons a as ih =>
        intro acc hall hacc
        rw [List.foldl_cons]
        refine ih _ (fun x hx => hall x (List.mem_cons_of_mem a hx)) ?_
        rw [applyAttr_dst_of_ne m.dstLen m.srcLen acc a (hall a (List.mem_cons_self a as))]
        exact hacc
    exact aux m.attrs zeroRtInfo hm rfl
  · intro dst h
    exact contains_zero_false dst (hlen dst h)
  · intro rs input src dst e h he hfind
    have hp := List.find?_some hfind
    obtain ⟨hc, _, _⟩ := (routeMatches_iff input src dst e).mp hp
    rw [he, contains_zero_false dst (hlen dst h)] at hc
    exact Bool.false_ne_true hc

/-- Witness for C10: a family-2 message carrying only an RTA_PRIORITY
attribute builds a zero-destination record, 8.8.8.8 is not contained in the
zero prefix, and a table of zero records never yields a match for it. -/
theorem c10_zero_dst_witness :
    (buildRtInfo ⟨2, 0, 0, [⟨6, [0, 1, 0, 0]⟩]⟩).Dst = zeroIPNet ∧
      containsIP zeroIPNet [8, 8, 8, 8] = false ∧
      List.find? (routeMatches 0 [] [8, 8, 8, 8]) [zeroRtInfo] ≠ some zeroRtInfo :=
  ⟨c10_zero_dst.1 ⟨2, 0, 0, [⟨6, [0, 1, 0, 0]⟩]⟩ (by decide),
   c10_zero_dst.2.1 [8, 8, 8, 8] (Or.inl rfl),
   c10_zero_dst.2.2 [zeroRtInfo] 0 [] [8, 8, 8, 8] zeroRtInfo (Or.inl rfl) rfl⟩
